import Mathlib

/-!
Verification of the BJJ-Trader frontend real-time distribution pipeline.

The definitions below are a shallow embedding of the TypeScript sources:
  - `throttle` closure state machine from
    src/frontend/src/infrastructure/utils/throttle.ts (lines 12-35);
  - the `SocketService` event dispatcher from the frontend adapter
    (channels price_update / chart_data / new_alert / indicators,
    removeListeners), including the throttled wrappers it installs;
  - the `useMarketData` hook's candle-update and recent-alerts logic;
  - the domain records from src/frontend/src/domain/models.ts.

JavaScript `Date.now()` timestamps are modelled as `Nat` milliseconds and
IEEE-754 numeric payloads as `ℚ` (all comparisons performed by the code are
on finite doubles, where they agree with the rational order).
-/

namespace BJJTrader

/-- Throttle interval for the price_update channel (SocketService.ts):
max 2 price updates per second. -/
def PRICE_UPDATE_THROTTLE_MS : Nat := 500

/-- Throttle interval for the indicators channel (SocketService.ts):
max 1 indicator update per second. -/
def INDICATORS_THROTTLE_MS : Nat := 1000

/-- The mutable state captured by the `throttle` closure (throttle.ts lines
13-14): `lastTime` (initially 0) and the scheduled timeout, if any, carrying
the time at which it will fire and the arguments captured when it was set. -/
structure ThrottleState (α : Type) where
  lastTime : Nat
  pending : Option (Nat × α)
deriving Repr, DecidableEq

/-- Initial closure state: `lastTime = 0`, `timeoutId = null`. -/
def throttleInit {α : Type} : ThrottleState α := { lastTime := 0, pending := none }

/-- The `remaining` local of the throttled wrapper (throttle.ts line 18):
`wait - (now - lastTime)`, computed over the integers since JavaScript
subtraction can go negative. -/
def remainingMs {α : Type} (wait : Nat) (s : ThrottleState α) (now : Nat) : Int :=
  (wait : Int) - ((now : Int) - (s.lastTime : Int))

/-- One invocation of the throttled wrapper (throttle.ts lines 16-33) at time
`now` with arguments `args`. Returns the new closure state and `some args`
when the wrapped function is invoked synchronously. When `remaining <= 0 ||
remaining > wait`, any pending timeout is cleared and the function fires now;
otherwise, if no timeout is pending, one is scheduled for `now + remaining`
with the current arguments; otherwise the call is ignored. -/
def throttleCall {α : Type} (wait : Nat) (s : ThrottleState α) (now : Nat) (args : α) :
    ThrottleState α × Option α :=
  if remainingMs wait s now ≤ 0 ∨ (wait : Int) < remainingMs wait s now then
    ({ lastTime := now, pending := none }, some args)
  else if s.pending.isNone then
    ({ s with pending := some (now + (remainingMs wait s now).toNat, args) }, none)
  else
    (s, none)

/-- The timeout callback (throttle.ts lines 28-32) running at time `now`: sets
`lastTime` to the current time, clears the timeout and invokes the wrapped
function with the arguments captured at scheduling time. Firing with no
pending timeout is a no-op (a cleared timer never runs). -/
def throttleFire {α : Type} (s : ThrottleState α) (now : Nat) :
    ThrottleState α × Option α :=
  match s.pending with
  | some (_, args) => ({ lastTime := now, pending := none }, some args)
  | none => (s, none)

/-- An event hitting the throttled wrapper: an external call, or the timer
firing. -/
inductive ThrottleEvent (α : Type) where
  | call (args : α)
  | fire
deriving Repr, DecidableEq

/-- Step of the throttle state machine on one timed event. -/
def throttleStep {α : Type} (wait : Nat) (s : ThrottleState α) (t : Nat) :
    ThrottleEvent α → ThrottleState α × Option α
  | .call a => throttleCall wait s t a
  | .fire => throttleFire s t

/-- Deliveries (time, value) produced by one step. -/
def stepOut {α : Type} (wait : Nat) (s : ThrottleState α) (t : Nat)
    (e : ThrottleEvent α) : List (Nat × α) :=
  match (throttleStep wait s t e).2 with
  | some v => [(t, v)]
  | none => []

/-- Run the throttle state machine over a timed event trace, collecting the
deliveries to the wrapped function in order. -/
def runThrottle {α : Type} (wait : Nat) (s : ThrottleState α) :
    List (Nat × ThrottleEvent α) → List (Nat × α)
  | [] => []
  | (t, e) :: rest =>
      stepOut wait s t e ++ runThrottle wait (throttleStep wait s t e).1 rest

/-- A fire event is on time: the JavaScript timer never runs before the
scheduled instant. -/
def fireOnTime {α : Type} (s : ThrottleState α) (t : Nat) : Bool :=
  match s.pending with
  | some (ft, _) => decide (ft ≤ t)
  | none => true

/-- Environment constraint on one event. -/
def eventOk {α : Type} (s : ThrottleState α) (t : Nat) : ThrottleEvent α → Bool
  | .call _ => true
  | .fire => fireOnTime s t

/-- Well-formed trace from state `s` with all timestamps at least `t0`:
`Date.now()` is nondecreasing across events, and timers fire no earlier than
scheduled. -/
def wfTrace {α : Type} (wait : Nat) (s : ThrottleState α) (t0 : Nat) :
    List (Nat × ThrottleEvent α) → Bool
  | [] => true
  | (t, e) :: rest =>
      decide (t0 ≤ t) && eventOk s t e &&
        wfTrace wait (throttleStep wait s t e).1 t rest

/-- Key invariant-preservation lemma for the throttle: running over a
well-formed trace from a state whose pending timeout (if any) is scheduled
exactly one wait after the last execution yields deliveries that are all at
least one wait after that last execution and pairwise separated by at least
the wait interval. -/
theorem runThrottle_sep {α : Type} (wait : Nat) (tr : List (Nat × ThrottleEvent α)) :
    ∀ (s : ThrottleState α) (t0 : Nat),
      wfTrace wait s t0 tr = true →
      s.lastTime ≤ t0 →
      (∀ ft a, s.pending = some (ft, a) → ft = s.lastTime + wait) →
      (∀ d ∈ runThrottle wait s tr, s.lastTime + wait ≤ d.1) ∧
      (runThrottle wait s tr).Pairwise (fun d1 d2 => d1.1 + wait ≤ d2.1) := by
  induction tr with
  | nil =>
    intro s t0 _ _ _
    simp [runThrottle]
  | cons head rest ih =>
    obtain ⟨t, e⟩ := head
    intro s t0 hwf hlt hp
    simp only [wfTrace, Bool.and_eq_true, decide_eq_true_eq] at hwf
    obtain ⟨⟨ht0, hev⟩, hrest⟩ := hwf
    have hst : s.lastTime ≤ t := le_trans hlt ht0
    cases e with
    | call a =>
      by_cases hc : remainingMs wait s t ≤ 0 ∨ (wait : Int) < remainingMs wait s t
      · -- synchronous fire: any pending timeout is cleared
        have hsep : s.lastTime + wait ≤ t := by
          rcases hc with hc | hc
          · simp only [remainingMs] at hc; omega
          · exfalso; simp only [remainingMs] at hc; omega
        have hstep : throttleStep wait s t (.call a) =
            ({ lastTime := t, pending := none }, some a) := by
          simp [throttleStep, throttleCall, hc]
        rw [hstep] at hrest
        obtain ⟨hall, hpw⟩ := ih ({ lastTime := t, pending := none }) t hrest
          (le_refl t) (by intro ft b hb; simp at hb)
        simp only [runThrottle, stepOut, hstep, List.cons_append, List.nil_append]
        refine ⟨?_, ?_⟩
        · intro d hd
          rcases List.mem_cons.1 hd with rfl | hd
          · exact hsep
          · have := hall d hd
            simp only at this
            omega
        · refine List.pairwise_cons.2 ⟨?_, hpw⟩
          intro d hd
          have := hall d hd
          simp only at this
          omega
      · by_cases hq : s.pending.isNone
        · -- a trailing timeout is scheduled at lastTime + wait
          push_neg at hc
          obtain ⟨hc1, hc2⟩ := hc
          have hft : t + (remainingMs wait s t).toNat = s.lastTime + wait := by
            simp only [remainingMs] at hc1 hc2 ⊢
            omega
          have hstep : throttleStep wait s t (.call a) =
              ({ s with pending := some (t + (remainingMs wait s t).toNat, a) }, none) := by
            simp only [throttleStep, throttleCall, hq, if_true]
            rw [if_neg]
            push_neg
            exact ⟨hc1, hc2⟩
          rw [hstep] at hrest
          obtain ⟨hall, hpw⟩ := ih _ t hrest hst
            (by intro ft b hb; simp at hb; rw [← hb.1]; exact hft)
          simp only [runThrottle, stepOut, hstep, List.nil_append]
          exact ⟨hall, hpw⟩
        · -- call dropped: a timeout is already pending
          push_neg at hc
          obtain ⟨hc1, hc2⟩ := hc
          have hstep : throttleStep wait s t (.call a) = (s, none) := by
            simp only [throttleStep, throttleCall, hq, if_false]
            rw [if_neg]
            · simp [hq]
            · push_neg
              exact ⟨hc1, hc2⟩
          rw [hstep] at hrest
          obtain ⟨hall, hpw⟩ := ih s t hrest hst hp
          simp only [runThrottle, stepOut, hstep, List.nil_append]
          exact ⟨hall, hpw⟩
    | fire =>
      cases hpend : s.pending with
      | none =>
        have hstep : throttleStep wait s t .fire = (s, none) := by
          simp [throttleStep, throttleFire, hpend]
        rw [hstep] at hrest
        obtain ⟨hall, hpw⟩ := ih s t hrest hst hp
        simp only [runThrottle, stepOut, hstep, List.nil_append]
        exact ⟨hall, hpw⟩
      | some p =>
        obtain ⟨ft, a⟩ := p
        have hft : ft = s.lastTime + wait := hp ft a hpend
        have hfot : ft ≤ t := by
          simp only [eventOk, fireOnTime, hpend, decide_eq_true_eq] at hev
          exact hev
        have hstep : throttleStep wait s t .fire =
            ({ lastTime := t, pending := none }, some a) := by
          simp [throttleStep, throttleFire, hpend]
        rw [hstep] at hrest
        obtain ⟨hall, hpw⟩ := ih ({ lastTime := t, pending := none }) t hrest
          (le_refl t) (by intro ft' b hb; simp at hb)
        simp only [runThrottle, stepOut, hstep, List.cons_append, List.nil_append]
        refine ⟨?_, ?_⟩
        · intro d hd
          rcases List.mem_cons.1 hd with rfl | hd
          · omega
          · have := hall d hd
            simp only at this
            omega
        · refine List.pairwise_cons.2 ⟨?_, hpw⟩
          intro d hd
          have := hall d hd
          simp only at this
          omega

/-- Number of deliveries falling inside the half-open window [w, w + wait). -/
def windowCount {α : Type} (w wait : Nat) (ds : List (Nat × α)) : Nat :=
  (ds.filter (fun d => decide (w ≤ d.1) && decide (d.1 < w + wait))).length

/-- A list pairwise separated by at least `wait` that lies entirely inside one
window of length `wait` has at most one element. -/
theorem length_le_one_of_sep_in_window {α : Type} (w wait : Nat) :
    ∀ (l : List (Nat × α)),
      l.Pairwise (fun d1 d2 => d1.1 + wait ≤ d2.1) →
      (∀ d ∈ l, w ≤ d.1 ∧ d.1 < w + wait) →
      l.length ≤ 1
  | [], _, _ => by simp
  | [_], _, _ => by simp
  | d1 :: d2 :: rest, hpw, hmem => by
      exfalso
      have h12 := (List.pairwise_cons.1 hpw).1 d2 (List.mem_cons_self _ _)
      have h1 := hmem d1 (List.mem_cons_self _ _)
      have h2 := hmem d2 (List.mem_cons.2 (Or.inr (List.mem_cons_self _ _)))
      omega

/-- Pairwise separation by at least `wait` bounds every window's delivery
count by one. -/
theorem windowCount_le_one {α : Type} (w wait : Nat) (ds : List (Nat × α))
    (h : ds.Pairwise (fun d1 d2 => d1.1 + wait ≤ d2.1)) :
    windowCount w wait ds ≤ 1 := by
  refine length_le_one_of_sep_in_window w wait _ (h.filter _) ?_
  intro d hd
  have hmem := List.mem_filter.1 hd
  have := hmem.2
  simp only [Bool.and_eq_true, decide_eq_true_eq] at this
  exact this

/-- Indicators record from src/frontend/src/domain/models.ts. Numeric fields
are finite doubles in the source, modelled as rationals; optional fields are
Option. -/
structure Indicators where
  rsi : ℚ
  macd : ℚ
  macd_signal : ℚ
  macd_hist : ℚ
  adx : Option ℚ
  ema_fast : ℚ
  ema_slow : ℚ
  trend : Option String
  atr : ℚ
  price : ℚ
  change : ℚ
  changePercent : ℚ
deriving Repr, DecidableEq

/-- Sample Indicators value, used to instantiate witnesses. -/
def ind0 : Indicators :=
  { rsi := 31, macd := 1/1000, macd_signal := 1/2000, macd_hist := 1/2000
    adx := none, ema_fast := 221/200, ema_slow := 11/10, trend := some "UP"
    atr := 3/2500, price := 221/200, change := 1/1000, changePercent := 1/10 }

/-- C2: for every well-formed sequence of timed calls hitting the throttled
price_update wrapper (wait 500 ms) and the throttled indicators wrapper
(wait 1000 ms), each installed by SocketService over `throttle`, every
half-open window of the configured interval contains at most one delivery to
the wrapped callback on that channel. -/
theorem rate_limited_per_channel
    (ptr : List (Nat × ThrottleEvent ℚ)) (itr : List (Nat × ThrottleEvent Indicators))
    (hp : wfTrace PRICE_UPDATE_THROTTLE_MS throttleInit 0 ptr = true)
    (hi : wfTrace INDICATORS_THROTTLE_MS throttleInit 0 itr = true) :
    (∀ w, windowCount w PRICE_UPDATE_THROTTLE_MS
        (runThrottle PRICE_UPDATE_THROTTLE_MS throttleInit ptr) ≤ 1) ∧
    (∀ w, windowCount w INDICATORS_THROTTLE_MS
        (runThrottle INDICATORS_THROTTLE_MS throttleInit itr) ≤ 1) := by
  constructor
  · intro w
    refine windowCount_le_one w _ _ ?_
    exact (runThrottle_sep PRICE_UPDATE_THROTTLE_MS ptr throttleInit 0 hp
      (le_refl 0) (by intro ft a h; simp [throttleInit] at h)).2
  · intro w
    refine windowCount_le_one w _ _ ?_
    exact (runThrottle_sep INDICATORS_THROTTLE_MS itr throttleInit 0 hi
      (le_refl 0) (by intro ft a h; simp [throttleInit] at h)).2

/-- Witness for C2 on concrete traces: two price calls 100 ms apart and one
indicators call. -/
theorem rate_limited_per_channel_witness :
    windowCount 600 PRICE_UPDATE_THROTTLE_MS
      (runThrottle PRICE_UPDATE_THROTTLE_MS throttleInit
        [(600, ThrottleEvent.call ((221/200 : ℚ))),
          (700, ThrottleEvent.call (1107/1000))]) ≤ 1 ∧
    windowCount 1500 INDICATORS_THROTTLE_MS
      (runThrottle INDICATORS_THROTTLE_MS throttleInit
        [(2000, ThrottleEvent.call ind0)]) ≤ 1 :=
  ⟨(rate_limited_per_channel
      [(600, ThrottleEvent.call ((221/200 : ℚ))), (700, ThrottleEvent.call (1107/1000))]
      [(2000, ThrottleEvent.call ind0)] (by decide) (by decide)).1 600,
    (rate_limited_per_channel
      [(600, ThrottleEvent.call ((221/200 : ℚ))), (700, ThrottleEvent.call (1107/1000))]
      [(2000, ThrottleEvent.call ind0)] (by decide) (by decide)).2 1500⟩

/-- C10: a call hitting the throttled wrapper when at least the wait interval
has elapsed since the last execution (the very first call included, since the
closure starts with lastTime = 0) invokes the wrapped function synchronously
with that call's arguments, cancelling any pending scheduled invocation. -/
theorem throttle_leading_edge {α : Type} (wait now : Nat) (s : ThrottleState α) (v : α)
    (h : s.lastTime + wait ≤ now) :
    throttleCall wait s now v = ({ lastTime := now, pending := none }, some v) := by
  have hrem : remainingMs wait s now ≤ 0 := by
    simp only [remainingMs]
    omega
  simp [throttleCall, hrem]

/-- Witness for C10: the very first call ever (initial closure state) at a
realistic clock value fires synchronously, and so does a call one full window
after an execution, cancelling the pending timeout. -/
theorem throttle_leading_edge_witness :
    (throttleInit : ThrottleState ℚ).lastTime + 500 ≤ 1000 ∧
    throttleCall 500 (throttleInit : ThrottleState ℚ) 1000 7 =
      ({ lastTime := 1000, pending := none }, some 7) ∧
    throttleCall 500 ({ lastTime := 1000, pending := some (1500, 2) } : ThrottleState ℚ)
        1600 9 = ({ lastTime := 1600, pending := none }, some 9) :=
  ⟨by decide, throttle_leading_edge 500 1000 throttleInit 7 (by decide),
    throttle_leading_edge 500 1600
      ({ lastTime := 1000, pending := some (1500, 2) } : ThrottleState ℚ) 9 (by decide)⟩

/-- Concrete trace refuting the last-value-wins reading of the throttle: a
synchronous delivery at t=1000, then three updates inside the 500 ms window
(values 2 then 3), then the trailing timer firing at the window boundary. -/
def c1trace : List (Nat × ThrottleEvent ℚ) :=
  [(1000, ThrottleEvent.call 1), (1100, ThrottleEvent.call 2),
    (1200, ThrottleEvent.call 3), (1500, ThrottleEvent.fire)]

/-- Counterexample to C1: with updates 2 (at t=1100) and 3 (at t=1200) both
inside the window that ends at t=1500, the value delivered at the window
boundary is 2 — the first suppressed update — while the most recent value 3,
produced before the boundary, is never delivered. -/
theorem last_value_wins_refuted :
    runThrottle PRICE_UPDATE_THROTTLE_MS throttleInit c1trace =
      [(1000, 1), (1500, 2)] ∧
    (1200, ThrottleEvent.call (3 : ℚ)) ∈ c1trace ∧
    (1500, (3 : ℚ)) ∉ runThrottle PRICE_UPDATE_THROTTLE_MS throttleInit c1trace ∧
    (runThrottle PRICE_UPDATE_THROTTLE_MS throttleInit c1trace).getLast? =
      some (1500, 2) := by
  refine ⟨by decide, by decide, by decide, by decide⟩

/-- C1 as amended: while a suppressed update is pending inside the rate-limit
window, further updates are dropped outright — the pending slot keeps the
arguments of the first update that arrived after the window opened, and the
timer delivers exactly those arguments at the boundary. -/
theorem first_suppressed_value_wins {α : Type} (wait now fireTime : Nat)
    (s : ThrottleState α) (ft : Nat) (a v : α)
    (hpend : s.pending = some (ft, a))
    (hlt : s.lastTime ≤ now) (hwin : now < s.lastTime + wait) :
    throttleCall wait s now v = (s, none) ∧
    throttleFire s fireTime = ({ lastTime := fireTime, pending := none }, some a) := by
  constructor
  · have hc1 : ¬ remainingMs wait s now ≤ 0 := by
      simp only [remainingMs]
      omega
    have hc2 : ¬ (wait : Int) < remainingMs wait s now := by
      simp only [remainingMs]
      omega
    simp [throttleCall, hc1, hc2, hpend]
  · simp [throttleFire, hpend]

/-- Witness for the amended C1: with value 2 pending for the boundary t=1500,
the update 3 arriving at t=1200 changes nothing, and the timer delivers 2. -/
theorem first_suppressed_value_wins_witness :
    ({ lastTime := 1000, pending := some (1500, 2) } : ThrottleState ℚ).pending =
      some (1500, 2) ∧
    throttleCall 500 ({ lastTime := 1000, pending := some (1500, 2) } : ThrottleState ℚ)
        1200 3 = ({ lastTime := 1000, pending := some (1500, 2) }, none) ∧
    throttleFire ({ lastTime := 1000, pending := some (1500, 2) } : ThrottleState ℚ)
        1500 = ({ lastTime := 1500, pending := none }, some 2) :=
  ⟨rfl,
    (first_suppressed_value_wins 500 1200 1500 _ 1500 2 3 rfl (by decide) (by decide)).1,
    (first_suppressed_value_wins 500 1200 1500 _ 1500 2 3 rfl (by decide) (by decide)).2⟩

/-- ChartDataPoint from src/frontend/src/domain/models.ts. The source allows
`time` to be a UTC timestamp or a string; it is treated opaquely here as a
timestamp, since the code never computes with it. `open` is a reserved word
in Lean, so the field is `open_`. -/
structure ChartDataPoint where
  time : Nat
  open_ : ℚ
  high : ℚ
  low : ℚ
  close : ℚ
deriving Repr, DecidableEq

/-- Signal from src/frontend/src/domain/models.ts. -/
structure Signal where
  symbol : String
  type : String
  indicator : String
  reason : String
  strength : String
  price : ℚ
  stopLoss : ℚ
  takeProfit : ℚ
  time : String
  expiration : Option String
  atr : Option ℚ
  rsi : Option ℚ
  macd_hist : Option ℚ
deriving Repr, DecidableEq

/-- Local candle update in useMarketData's onPriceUpdate handler: copy the
last candle, set close to the new price, raise high when the price exceeds
it, lower low when the price undercuts it. The two comparisons read high and
low before either is reassigned, as in the source (close is written first and
the tests mention only high and low). -/
def updateCandle (last : ChartDataPoint) (price : ℚ) : ChartDataPoint :=
  { time := last.time
    open_ := last.open_
    high := if last.high < price then price else last.high
    low := if price < last.low then price else last.low
    close := price }

/-- C9: after a price update on an existing candle, low ≤ close ≤ high with
close equal to the new price; high never decreases, low never increases, and
time and open are untouched. -/
theorem candle_update_ohlc (last : ChartDataPoint) (price : ℚ) :
    (updateCandle last price).close = price ∧
    (updateCandle last price).low ≤ (updateCandle last price).close ∧
    (updateCandle last price).close ≤ (updateCandle last price).high ∧
    last.high ≤ (updateCandle last price).high ∧
    (updateCandle last price).low ≤ last.low ∧
    (updateCandle last price).time = last.time ∧
    (updateCandle last price).open_ = last.open_ := by
  refine ⟨rfl, ?_, ?_, ?_, ?_, rfl, rfl⟩
  · show (if price < last.low then price else last.low) ≤ price
    split_ifs with h
    · exact le_refl _
    · exact not_lt.mp h
  · show price ≤ (if last.high < price then price else last.high)
    split_ifs with h
    · exact le_refl _
    · exact not_lt.mp h
  · show last.high ≤ (if last.high < price then price else last.high)
    split_ifs with h
    · exact le_of_lt h
    · exact le_refl _
  · show (if price < last.low then price else last.low) ≤ last.low
    split_ifs with h
    · exact le_of_lt h
    · exact le_refl _

/-- Recent-alerts buffer update in useMarketData's onNewAlert handler:
`[signal, ...prev].slice(0, 50)`. -/
def updateSignals (signal : Signal) (prev : List Signal) : List Signal :=
  (signal :: prev).take 50

/-- C6: the arriving signal is prepended at the front, the buffer is capped
at 50 entries, existing entries are preserved in order (up to the first 49),
and when the buffer is full the oldest entry is the one evicted. -/
theorem alerts_buffer_prepend_capped (signal : Signal) (prev : List Signal) :
    updateSignals signal prev = signal :: prev.take 49 ∧
    (updateSignals signal prev).length = min (prev.length + 1) 50 ∧
    (prev.length < 50 → updateSignals signal prev = signal :: prev) ∧
    (prev.length = 50 → updateSignals signal prev = signal :: prev.dropLast) := by
  refine ⟨rfl, ?_, ?_, ?_⟩
  · simp only [updateSignals, List.length_take, List.length_cons]
    omega
  · intro h
    simp only [updateSignals, List.take_succ_cons]
    rw [List.take_of_length_le (by omega)]
  · intro h
    simp only [updateSignals, List.take_succ_cons]
    rw [List.dropLast_eq_take, h]

/-- Sample Signal value, used to instantiate witnesses. -/
def sig0 : Signal :=
  { symbol := "EURUSD=X", type := "BUY", indicator := "EMA", reason := "EMA cross up"
    strength := "FUERTE", price := 221/200, stopLoss := 1379/1250
    takeProfit := 5537/5000, time := "2024-01-01T00:00:00Z", expiration := none
    atr := some (3/2500), rsi := some 31, macd_hist := some (1/2000) }

/-- Witness for C6: prepending to an empty buffer yields the one-element
buffer, via the below-cap case of the theorem. -/
theorem alerts_buffer_prepend_capped_witness :
    updateSignals sig0 [] = [sig0] :=
  (alerts_buffer_prepend_capped sig0 []).2.2.1 (by decide)

/-- An occurrence hitting the SocketService client dispatcher: a socket event
on one of the four channels, one of the two throttle timers firing, or
removeListeners being called. -/
inductive SockEvent where
  | price_update (t : Nat) (price : ℚ)
  | chart_data (t : Nat) (data : List ChartDataPoint)
  | new_alert (t : Nat) (signal : Signal)
  | indicators_event (t : Nat) (data : Indicators)
  | priceTimer (t : Nat)
  | indicatorsTimer (t : Nat)
  | remove_listeners (t : Nat)
deriving Repr, DecidableEq

/-- A delivery to one of the client callbacks registered through
useMarketData. -/
inductive Delivery where
  | price (t : Nat) (price : ℚ)
  | chart (t : Nat) (data : List ChartDataPoint)
  | alert (t : Nat) (signal : Signal)
  | indicators (t : Nat) (data : Indicators)
deriving Repr, DecidableEq

/-- State of the SocketService dispatcher for one client: whether its socket
handlers are attached (socket.off in removeListeners detaches them), plus the
closure state of the two throttled wrappers installed by onPriceUpdate and
onIndicators. -/
structure DispatchState where
  registered : Bool
  priceThrottle : ThrottleState ℚ
  indicatorsThrottle : ThrottleState Indicators
deriving Repr, DecidableEq

/-- Dispatcher state right after the useMarketData effect registers all
handlers. -/
def dispatchInit : DispatchState :=
  { registered := true, priceThrottle := throttleInit, indicatorsThrottle := throttleInit }

/-- One step of the SocketService dispatcher, mirroring the handlers of
SocketService.ts: price_update and indicators run through their throttled
wrappers; chart_data and new_alert call back directly; the setTimeout timers
run independently of socket listener registration (removeListeners never
calls clearTimeout, it only detaches socket handlers); remove_listeners
detaches every handler and leaves the throttle closures as they are. -/
def dispatchStep (s : DispatchState) : SockEvent → DispatchState × List Delivery
  | .price_update t p =>
      if s.registered then
        ({ s with priceThrottle := (throttleCall PRICE_UPDATE_THROTTLE_MS s.priceThrottle t p).1 },
          match (throttleCall PRICE_UPDATE_THROTTLE_MS s.priceThrottle t p).2 with
          | some v => [.price t v]
          | none => [])
      else (s, [])
  | .chart_data t d => if s.registered then (s, [.chart t d]) else (s, [])
  | .new_alert t sig => if s.registered then (s, [.alert t sig]) else (s, [])
  | .indicators_event t d =>
      if s.registered then
        ({ s with indicatorsThrottle := (throttleCall INDICATORS_THROTTLE_MS s.indicatorsThrottle t d).1 },
          match (throttleCall INDICATORS_THROTTLE_MS s.indicatorsThrottle t d).2 with
          | some v => [.indicators t v]
          | none => [])
      else (s, [])
  | .priceTimer t =>
      ({ s with priceThrottle := (throttleFire s.priceThrottle t).1 },
        match (throttleFire s.priceThrottle t).2 with
        | some v => [.price t v]
        | none => [])
  | .indicatorsTimer t =>
      ({ s with indicatorsThrottle := (throttleFire s.indicatorsThrottle t).1 },
        match (throttleFire s.indicatorsThrottle t).2 with
        | some v => [.indicators t v]
        | none => [])
  | .remove_listeners _ => ({ s with registered := false }, [])

/-- Run the dispatcher over an event sequence, collecting deliveries. -/
def runDispatch (s : DispatchState) : List SockEvent → List Delivery
  | [] => []
  | e :: rest => (dispatchStep s e).2 ++ runDispatch (dispatchStep s e).1 rest

/-- C4: a new_alert socket event reaching a registered client delivers the
signal to the alert callback synchronously at the same instant, leaves the
whole dispatcher state (both throttle closures included) untouched, and does
so for every state of the price and indicators throttle windows. -/
theorem new_alert_immediate (s : DispatchState) (t : Nat) (sig : Signal)
    (h : s.registered = true) :
    dispatchStep s (.new_alert t sig) = (s, [.alert t sig]) := by
  simp [dispatchStep, h]

/-- Witness for C4: an alert arriving while both throttle windows hold a
pending value is still delivered at once. -/
theorem new_alert_immediate_witness :
    ({ registered := true,
        priceThrottle := { lastTime := 1000, pending := some (1500, 2) },
        indicatorsThrottle := { lastTime := 900, pending := some (1900, ind0) } } :
          DispatchState).registered = true ∧
    dispatchStep
      { registered := true,
        priceThrottle := { lastTime := 1000, pending := some (1500, 2) },
        indicatorsThrottle := { lastTime := 900, pending := some (1900, ind0) } }
      (.new_alert 1200 sig0) =
      ({ registered := true,
          priceThrottle := { lastTime := 1000, pending := some (1500, 2) },
          indicatorsThrottle := { lastTime := 900, pending := some (1900, ind0) } },
        [.alert 1200 sig0]) :=
  ⟨rfl, new_alert_immediate _ 1200 sig0 rfl⟩

/-- Modelled from the spec: the backend dispatcher (dashboard.py, not under
src/) answers a client's request_data for a symbol by immediately emitting a
full chart_data snapshot to it; on the client, connect and every
(re)subscription issue request_data. -/
def serverRespondRequestData (t : Nat) (snapshot : List ChartDataPoint) : SockEvent :=
  .chart_data t snapshot

/-- C7: the chart_data event produced for a (re)subscription is delivered to
the chart callback at the same instant, with no rate limiting: the handler
in onChartData is a plain pass-through, so the delivery is independent of
both throttle windows and of any pending suppressed values. -/
theorem chart_snapshot_immediate (s : DispatchState) (t : Nat)
    (snapshot : List ChartDataPoint) (h : s.registered = true) :
    dispatchStep s (serverRespondRequestData t snapshot) = (s, [.chart t snapshot]) := by
  simp [dispatchStep, serverRespondRequestData, h]

/-- Witness for C7: a snapshot arriving while both throttle windows hold a
pending value is delivered at once. -/
theorem chart_snapshot_immediate_witness :
    ({ registered := true,
        priceThrottle := { lastTime := 1000, pending := some (1500, 2) },
        indicatorsThrottle := { lastTime := 900, pending := some (1900, ind0) } } :
          DispatchState).registered = true ∧
    dispatchStep
      { registered := true,
        priceThrottle := { lastTime := 1000, pending := some (1500, 2) },
        indicatorsThrottle := { lastTime := 900, pending := some (1900, ind0) } }
      (serverRespondRequestData 1200
        [{ time := 1, open_ := 1, high := 2, low := 1/2, close := 3/2 }]) =
      ({ registered := true,
          priceThrottle := { lastTime := 1000, pending := some (1500, 2) },
          indicatorsThrottle := { lastTime := 900, pending := some (1900, ind0) } },
        [.chart 1200 [{ time := 1, open_ := 1, high := 2, low := 1/2, close := 3/2 }]]) :=
  ⟨rfl, chart_snapshot_immediate _ 1200 _ rfl⟩

/-- Concrete run refuting C3: a price update at t=1000 (delivered), a second
update at t=1100 (suppressed, trailing timer scheduled for t=1500),
removeListeners at t=1200, then the still-armed timer firing at t=1500. -/
def c3trace : List SockEvent :=
  [.price_update 1000 1, .price_update 1100 2, .remove_listeners 1200,
    .priceTimer 1500]

/-- Counterexample to C3: removeListeners at t=1200 detaches the socket
handlers but never clears the throttle's pending setTimeout, so the
suppressed value 2 is still delivered to the price callback at t=1500, after
the client unsubscribed. -/
theorem remove_listeners_pending_timer_still_fires :
    runDispatch dispatchInit c3trace = [.price 1000 1, .price 1500 2] ∧
    Delivery.price 1500 2 ∈ runDispatch dispatchInit c3trace := by
  refine ⟨by decide, by decide⟩

/-- C3 as amended: after removeListeners, no socket event on any channel is
delivered to the removed client's callbacks — but a throttle timer armed
before the removal is not cancelled and still delivers its suppressed value
at the window boundary. -/
theorem removed_client_silent_except_pending_timer
    (s : DispatchState) (t ft : Nat) (p v : ℚ) (d : List ChartDataPoint)
    (sig : Signal) (ind : Indicators)
    (hr : s.registered = false) (hp : s.priceThrottle.pending = some (ft, v)) :
    dispatchStep s (.price_update t p) = (s, []) ∧
    dispatchStep s (.chart_data t d) = (s, []) ∧
    dispatchStep s (.new_alert t sig) = (s, []) ∧
    dispatchStep s (.indicators_event t ind) = (s, []) ∧
    dispatchStep s (.priceTimer t) =
      ({ s with priceThrottle := { lastTime := t, pending := none } }, [.price t v]) := by
  refine ⟨?_, ?_, ?_, ?_, ?_⟩
  · simp [dispatchStep, hr]
  · simp [dispatchStep, hr]
  · simp [dispatchStep, hr]
  · simp [dispatchStep, hr]
  · simp [dispatchStep, throttleFire, hp]

/-- Witness for the amended C3: the dispatcher state left by the first three
events of the counterexample trace is unregistered with value 2 pending, new
events on all four channels deliver nothing, and the armed timer delivers 2. -/
theorem removed_client_silent_except_pending_timer_witness :
    ({ registered := false,
        priceThrottle := { lastTime := 1000, pending := some (1500, 2) },
        indicatorsThrottle := throttleInit } : DispatchState).registered = false ∧
    ({ registered := false,
        priceThrottle := { lastTime := 1000, pending := some (1500, 2) },
        indicatorsThrottle := throttleInit } :
          DispatchState).priceThrottle.pending = some (1500, 2) ∧
    dispatchStep
      { registered := false,
        priceThrottle := { lastTime := 1000, pending := some (1500, 2) },
        indicatorsThrottle := throttleInit } (.new_alert 1300 sig0) =
      ({ registered := false,
          priceThrottle := { lastTime := 1000, pending := some (1500, 2) },
          indicatorsThrottle := throttleInit }, []) ∧
    dispatchStep
      { registered := false,
        priceThrottle := { lastTime := 1000, pending := some (1500, 2) },
        indicatorsThrottle := throttleInit } (.priceTimer 1500) =
      ({ registered := false,
          priceThrottle := { lastTime := 1500, pending := none },
          indicatorsThrottle := throttleInit }, [.price 1500 2]) :=
  ⟨rfl, rfl,
    (removed_client_silent_except_pending_timer _ 1300 1500 0 2 [] sig0 ind0 rfl rfl).2.2.1,
    (removed_client_silent_except_pending_timer _ 1500 1500 0 2 [] sig0 ind0 rfl rfl).2.2.2.2⟩

/-- The socket's per-event listener lists, as populated by SocketService's
on-methods (socket.on appends a handler; callbacks are identified by an id).
One list per event name used by the service. -/
structure ListenerMaps where
  connect_ls : List Nat
  disconnect_ls : List Nat
  price_update_ls : List Nat
  chart_data_ls : List Nat
  new_alert_ls : List Nat
  indicators_ls : List Nat
deriving Repr, DecidableEq

/-- Fresh socket: no listeners on any event. -/
def emptyListeners : ListenerMaps :=
  { connect_ls := [], disconnect_ls := [], price_update_ls := [],
    chart_data_ls := [], new_alert_ls := [], indicators_ls := [] }

/-- onPriceUpdate registers one more handler on the price_update event
(socket.on appends; nothing is returned to the caller for later removal). -/
def onPriceUpdateReg (cb : Nat) (m : ListenerMaps) : ListenerMaps :=
  { m with price_update_ls := m.price_update_ls ++ [cb] }

/-- onIndicators registers one more handler on the indicators event. -/
def onIndicatorsReg (cb : Nat) (m : ListenerMaps) : ListenerMaps :=
  { m with indicators_ls := m.indicators_ls ++ [cb] }

/-- removeListeners (SocketService.ts): socket.off on each of the six event
names, which removes every handler registered on that event. -/
def removeListenersReg (m : ListenerMaps) : ListenerMaps :=
  { m with
    connect_ls := []
    disconnect_ls := []
    price_update_ls := []
    chart_data_ls := []
    new_alert_ls := []
    indicators_ls := [] }

/-- Counterexample to C8: two onPriceUpdate registrations (handlers 1 and 2)
share the only removal operation the service offers; cancelling via
removeListeners removes handler 2 and also strips handler 1 — and every
listener of every other channel — so removal is not independent
per-registration. -/
theorem cancel_one_cancels_all :
    (onPriceUpdateReg 2 (onPriceUpdateReg 1 emptyListeners)).price_update_ls = [1, 2] ∧
    (removeListenersReg
        (onIndicatorsReg 3 (onPriceUpdateReg 2 (onPriceUpdateReg 1 emptyListeners)))).price_update_ls = [] ∧
    (removeListenersReg
        (onIndicatorsReg 3 (onPriceUpdateReg 2 (onPriceUpdateReg 1 emptyListeners)))).indicators_ls = [] := by
  refine ⟨by decide, by decide, by decide⟩

/-- C8 as amended: on-method registrations return no handle and carry no
individual cancellation; the sole removal operation, removeListeners, clears
every listener of every channel at once, while a registration by itself
leaves all other channels' listeners in place. -/
theorem registrations_share_global_removal (m : ListenerMaps) (cb : Nat) :
    removeListenersReg m = emptyListeners ∧
    (onPriceUpdateReg cb m).price_update_ls = m.price_update_ls ++ [cb] ∧
    (onPriceUpdateReg cb m).indicators_ls = m.indicators_ls ∧
    (onPriceUpdateReg cb m).new_alert_ls = m.new_alert_ls ∧
    (onPriceUpdateReg cb m).chart_data_ls = m.chart_data_ls ∧
    (onIndicatorsReg cb m).indicators_ls = m.indicators_ls ++ [cb] ∧
    (onIndicatorsReg cb m).price_update_ls = m.price_update_ls := by
  refine ⟨rfl, rfl, rfl, rfl, rfl, rfl, rfl⟩

/-- Signal direction, BUY or SELL. -/
inductive SignalType where
  | BUY
  | SELL
deriving Repr, DecidableEq

/-- Default stop-loss ATR multiplier (README config table: 1.5). -/
def STOP_LOSS_ATR_MULTIPLIER : ℚ := 3/2

/-- Default take-profit ATR multiplier (README config table: 2.0). -/
def TAKE_PROFIT_ATR_MULTIPLIER : ℚ := 2

/-- Modelled from the spec: the Risk Calculator is implemented in the Python
backend (trading_bot.py / dashboard.py), which is absent from src/ — the
frontend only displays its output (SignalAlerts.tsx). Following the spec's
words: for BUY, stopLoss = price - atr*slMultiplier and takeProfit =
price + atr*tpMultiplier; for SELL, mirrored; the computation fails (no
levels, signal dropped) when atr is non-positive. -/
def computeRisk (t : SignalType) (price atr slMultiplier tpMultiplier : ℚ) :
    Option (ℚ × ℚ) :=
  if atr ≤ 0 then none
  else
    match t with
    | .BUY => some (price - atr * slMultiplier, price + atr * tpMultiplier)
    | .SELL => some (price + atr * slMultiplier, price - atr * tpMultiplier)

/-- C5: for positive atr and multipliers, the computed levels carry the
spec's formulas and straddle the entry price according to the signal type:
BUY gives stopLoss < price < takeProfit, SELL gives
takeProfit < price < stopLoss. -/
theorem risk_levels_straddle_price (t : SignalType) (price atr slM tpM sl tp : ℚ)
    (hatr : 0 < atr) (hsl : 0 < slM) (htp : 0 < tpM)
    (h : computeRisk t price atr slM tpM = some (sl, tp)) :
    (t = SignalType.BUY →
      sl = price - atr * slM ∧ tp = price + atr * tpM ∧ sl < price ∧ price < tp) ∧
    (t = SignalType.SELL →
      sl = price + atr * slM ∧ tp = price - atr * tpM ∧ tp < price ∧ price < sl) := by
  have hslp : 0 < atr * slM := mul_pos hatr hsl
  have htpp : 0 < atr * tpM := mul_pos hatr htp
  cases t with
  | BUY =>
    simp only [computeRisk, if_neg (not_le.mpr hatr), Option.some.injEq,
      Prod.mk.injEq] at h
    refine ⟨fun _ => ⟨h.1.symm, h.2.symm, ?_, ?_⟩, fun hne => by simp at hne⟩
    · rw [← h.1]; linarith
    · rw [← h.2]; linarith
  | SELL =>
    simp only [computeRisk, if_neg (not_le.mpr hatr), Option.some.injEq,
      Prod.mk.injEq] at h
    refine ⟨fun hne => by simp at hne, fun _ => ⟨h.1.symm, h.2.symm, ?_, ?_⟩⟩
    · rw [← h.2]; linarith
    · rw [← h.1]; linarith

/-- Witness for C5, matching the spec's worked example: price 1.10500, ATR
0.0012 and the default multipliers give stopLoss 1.1032 < price <
takeProfit 1.1074 for a BUY signal. -/
theorem risk_levels_straddle_price_witness :
    (0 : ℚ) < 3/2500 ∧
    computeRisk SignalType.BUY (221/200) (3/2500) STOP_LOSS_ATR_MULTIPLIER
      TAKE_PROFIT_ATR_MULTIPLIER = some (1379/1250, 5537/5000) ∧
    ((1379/1250 : ℚ) = 221/200 - 3/2500 * STOP_LOSS_ATR_MULTIPLIER ∧
      (5537/5000 : ℚ) = 221/200 + 3/2500 * TAKE_PROFIT_ATR_MULTIPLIER ∧
      (1379/1250 : ℚ) < 221/200 ∧ (221/200 : ℚ) < 5537/5000) :=
  ⟨by norm_num,
    by norm_num [computeRisk, STOP_LOSS_ATR_MULTIPLIER, TAKE_PROFIT_ATR_MULTIPLIER],
    (risk_levels_straddle_price SignalType.BUY (221/200) (3/2500)
        STOP_LOSS_ATR_MULTIPLIER TAKE_PROFIT_ATR_MULTIPLIER (1379/1250) (5537/5000)
        (by norm_num) (by norm_num [STOP_LOSS_ATR_MULTIPLIER])
        (by norm_num [TAKE_PROFIT_ATR_MULTIPLIER])
        (by norm_num [computeRisk, STOP_LOSS_ATR_MULTIPLIER,
          TAKE_PROFIT_ATR_MULTIPLIER])).1 rfl⟩

end BJJTrader
